import Mathlib

/-!
Verification development for the school-management microservices
(user, class, content and communication services).  Each service's
request handlers are shallowly embedded as pure functions over an
explicit document-store state; document ids, JWT payloads and socket
sessions are explicit values.  Generated ids, the bcrypt salt and
"now" timestamps are passed in as parameters.
-/

/-- Role of an authenticated principal, as carried in the JWT payload
(`{ id, email, role }` signed by the user service). -/
inductive Role where
  | admin
  | teacher
  | student
deriving DecidableEq, Repr

/-- The part of the decoded bearer token the Express handlers read
(`req.user.id`, `req.user.role`). -/
structure AuthUser where
  id : String
  role : Role
deriving DecidableEq, Repr

/-- An HTTP response reduced to its status code and `message` field. -/
structure HttpRes where
  status : Nat
  message : String
deriving DecidableEq, Repr

/-- `doc.save()` on a loaded mongoose document: replace the first stored
document whose key equals the saved document's key. -/
def saveDoc {α : Type} (key : α → String) : List α → α → List α
  | [], _ => []
  | x :: xs, d => if key x == key d then d :: xs else x :: saveDoc key xs d

/-- `Model.findById` / `Model.findOne` on a single key: first stored
document with the given key. -/
def findDoc {α : Type} (key : α → String) (l : List α) (i : String) : Option α :=
  l.find? (fun x => key x == i)

theorem findDoc_saveDoc {α : Type} (key : α → String) (l : List α) (d : α) (i : String)
    (h : ∃ x, findDoc key l i = some x) (hd : key d = i) :
    findDoc key (saveDoc key l d) i = some d := by
  induction l with
  | nil => simp [findDoc] at h
  | cons a as ih =>
    by_cases ha : key a = i
    · have had : key a = key d := by rw [hd, ha]
      simp [saveDoc, had, findDoc, List.find?, hd]
    · have hb : (key a == i) = false := by simp [ha]
      have h' : ∃ x, findDoc key as i = some x := by
        simpa [findDoc, List.find?, hb] using h
      have hbd : (key a == key d) = false := by simp [hd, ha]
      simpa [saveDoc, hbd, findDoc, List.find?, hb] using ih h'

namespace ClassSvc

/-! Class service (`class-service/server.js`): Class and Enrollment
documents, `POST /enrollments` and `PUT /enrollments/:id`. -/

/-- The fields of a Class document that the enrollment handlers read or
write; payload-only fields (name, description, schedule, ...) are inert
here and omitted.  `capacity` and `enrollmentCount` are JS numbers. -/
structure ClassDoc where
  id : String
  teacherId : String
  capacity : Int
  enrollmentCount : Int
deriving DecidableEq, Repr

/-- Enrollment status enum (`active`, `dropped`, `completed`). -/
inductive EnrollStatus where
  | active
  | dropped
  | completed
deriving DecidableEq, Repr

/-- An Enrollment document; the attendance list is inert for the
enrollment handlers and omitted. -/
structure EnrollmentDoc where
  id : String
  classId : String
  studentId : String
  status : EnrollStatus
deriving DecidableEq, Repr

/-- The class service's database. -/
structure ClassStore where
  classes : List ClassDoc
  enrollments : List EnrollmentDoc
deriving DecidableEq, Repr

/-- Body of `POST /enrollments`; Joi requires both strings present and
non-empty. -/
structure EnrollBody where
  classId : String
  studentId : String
deriving DecidableEq, Repr

/-- `POST /enrollments` (students only): capacity check, duplicate
check against any existing enrollment for the pair regardless of
status, insert, then increment the class counter. -/
def postEnrollments (st : ClassStore) (user : AuthUser) (body : EnrollBody)
    (newId : String) : HttpRes × ClassStore :=
  if user.role ≠ .student then
    ({ status := 403,
       message := "Access denied. Only students can enroll in classes." }, st)
  else if body.classId = "" ∨ body.studentId = "" then
    ({ status := 400, message := "validation error" }, st)
  else
    let classId := body.classId
    let studentId := user.id
    match findDoc ClassDoc.id st.classes classId with
    | none => ({ status := 404, message := "Class not found" }, st)
    | some classItem =>
      if classItem.enrollmentCount ≥ classItem.capacity then
        ({ status := 400, message := "Class is full" }, st)
      else
        match st.enrollments.find?
            (fun e => e.classId == classId && e.studentId == studentId) with
        | some _ =>
          ({ status := 400,
             message := "Student is already enrolled in this class" }, st)
        | none =>
          let newEnrollment : EnrollmentDoc :=
            { id := newId, classId := classId, studentId := studentId,
              status := .active }
          let st1 : ClassStore :=
            { st with enrollments := st.enrollments ++ [newEnrollment] }
          let classItem2 :=
            { classItem with enrollmentCount := classItem.enrollmentCount + 1 }
          let st2 : ClassStore :=
            { st1 with classes := saveDoc ClassDoc.id st1.classes classItem2 }
          ({ status := 201, message := "Enrolled successfully" }, st2)

/-- `PUT /enrollments/:id`: status update with role checks.  The source
assigns `enrollment.status = req.body.status` first and only then tests
`req.body.status === 'dropped' && enrollment.status === 'active'`, so
the decrement guard reads the already-overwritten status. -/
def putEnrollment (st : ClassStore) (user : AuthUser) (eid : String)
    (newStatus : EnrollStatus) : HttpRes × ClassStore :=
  match findDoc EnrollmentDoc.id st.enrollments eid with
  | none => ({ status := 404, message := "Enrollment not found" }, st)
  | some enrollment =>
    match findDoc ClassDoc.id st.classes enrollment.classId with
    | none => ({ status := 404, message := "Class not found" }, st)
    | some classItem =>
      let isStudent := user.id == enrollment.studentId
      let isTeacher := user.id == classItem.teacherId
      let isAdmin := user.role == Role.admin
      if ¬ (isStudent || isTeacher || isAdmin) then
        ({ status := 403, message := "Access denied" }, st)
      else if isStudent && newStatus != .dropped then
        ({ status := 403, message := "Students can only drop classes" }, st)
      else
        let enrollment2 := { enrollment with status := newStatus }
        let st1 :=
          if newStatus == .dropped && enrollment2.status == .active then
            let classItem2 :=
              { classItem with enrollmentCount := classItem.enrollmentCount - 1 }
            { st with classes := saveDoc ClassDoc.id st.classes classItem2 }
          else st
        let st2 :=
          { st1 with enrollments := saveDoc EnrollmentDoc.id st1.enrollments enrollment2 }
        ({ status := 200, message := "Enrollment updated successfully" }, st2)

/-- Number of Enrollment documents for a class whose status is `active`. -/
def activeCount (st : ClassStore) (cid : String) : Nat :=
  (st.enrollments.filter
    (fun e => e.classId == cid && e.status == EnrollStatus.active)).length

/-- A one-class store: capacity 2, one active enrollment, counter 1, so
the counter matches the active count before the drop. -/
def demoStore : ClassStore :=
  { classes := [{ id := "c1", teacherId := "t1", capacity := 2, enrollmentCount := 1 }],
    enrollments := [{ id := "e1", classId := "c1", studentId := "s1", status := .active }] }

/-- The store after the student `s1` drops enrollment `e1` in
`demoStore` via `PUT /enrollments/:id`. -/
def droppedStore : ClassStore :=
  (putEnrollment demoStore { id := "s1", role := .student } "e1" .dropped).2

/-- C1: the claim says `enrollmentCount` equals the number of active
enrollments after any enroll or drop; on `demoStore` the student's drop
succeeds (status 200, enrollment becomes dropped) yet the counter stays
at 1 while the active count falls to 0, because the handler overwrites
`enrollment.status` before the decrement guard reads it. -/
theorem C1_drop_leaves_stale_enrollment_count :
    (putEnrollment demoStore { id := "s1", role := .student } "e1" .dropped).1.status = 200
      ∧ ((findDoc EnrollmentDoc.id droppedStore.enrollments "e1").map EnrollmentDoc.status
          = some .dropped)
      ∧ ((findDoc ClassDoc.id droppedStore.classes "c1").map ClassDoc.enrollmentCount
          = some 1)
      ∧ activeCount droppedStore "c1" = 0 := by
  decide

/-- C3: the claim says a student who dropped can re-enroll whenever the
counter is below capacity; in `droppedStore` the counter (1) is below
the capacity (2), yet the re-enroll request is rejected with the
duplicate-enrollment error, because the duplicate lookup ignores the
enrollment's status. -/
theorem C3_reenroll_after_drop_rejected :
    ((findDoc ClassDoc.id droppedStore.classes "c1").map
        (fun c => decide (c.enrollmentCount < c.capacity)) = some true)
      ∧ (postEnrollments droppedStore { id := "s1", role := .student }
          { classId := "c1", studentId := "s1" } "e2").1.status = 400
      ∧ (postEnrollments droppedStore { id := "s1", role := .student }
          { classId := "c1", studentId := "s1" } "e2").1.message
        = "Student is already enrolled in this class" := by
  decide

end ClassSvc

namespace ContentSvc

/-! Content service (`content-service/server.js`): ContentItem documents
and `PUT /content-items/:id`. -/

/-- One entry of the `previousVersions` history list. -/
structure PrevVersion where
  content : String
  updatedAt : Nat
  updatedBy : String
deriving DecidableEq, Repr

/-- A ContentItem document; attachment/metadata fields are inert for
the update handler and omitted. -/
structure ContentItemDoc where
  id : String
  title : String
  description : String
  content : String
  authorId : String
  version : Nat
  previousVersions : List PrevVersion
  updatedAt : Nat
deriving DecidableEq, Repr

/-- The content service's ContentItem collection. -/
structure ContentStore where
  items : List ContentItemDoc
deriving DecidableEq, Repr

/-- Body of `PUT /content-items/:id`; absent fields are `none`.  The
other updatable fields (type, tags, status, publishDate, dueDate,
metadata) do not interact with the version history and are omitted. -/
structure ContentUpdateBody where
  title : Option String := none
  description : Option String := none
  content : Option String := none
deriving DecidableEq, Repr

/-- JS truthiness of `req.body.content`: present and non-empty. -/
def contentTruthy : Option String → Bool
  | none => false
  | some s => s ≠ ""

/-- `PUT /content-items/:id` (author or admin): push the previous
content onto `previousVersions` and bump `version` only when the
payload's `content` is truthy and differs from the stored content; the
field-update loop then writes any present field (even an empty
string); the pre-save hook stamps `updatedAt`. -/
def putContentItem (st : ContentStore) (user : AuthUser) (iid : String)
    (body : ContentUpdateBody) (now : Nat) : HttpRes × ContentStore :=
  match findDoc ContentItemDoc.id st.items iid with
  | none => ({ status := 404, message := "Content item not found" }, st)
  | some item0 =>
    if user.role ≠ .admin ∧ item0.authorId ≠ user.id then
      ({ status := 403,
         message := "Access denied. Only the author of this content or an admin can update it." },
       st)
    else
      let item1 :=
        if contentTruthy body.content && (body.content != some item0.content) then
          { item0 with
            previousVersions := item0.previousVersions
              ++ [{ content := item0.content, updatedAt := item0.updatedAt,
                    updatedBy := item0.authorId }],
            version := item0.version + 1 }
        else item0
      let item2 :=
        { item1 with
          title := body.title.getD item1.title,
          description := body.description.getD item1.description,
          content := body.content.getD item1.content }
      let item3 := { item2 with updatedAt := now }
      ({ status := 200, message := "Content item updated successfully" },
       { st with items := saveDoc ContentItemDoc.id st.items item3 })

/-- A fresh document-type ContentItem: version 1, no history. -/
def demoItem : ContentItemDoc :=
  { id := "i1", title := "T", description := "D", content := "A",
    authorId := "u1", version := 1, previousVersions := [], updatedAt := 10 }

/-- C2 counterexample: an author's update whose payload includes the
`content` field but with the value already stored appends nothing to
`previousVersions` and leaves `version` at 1, against the claimed one
appended entry and increment to 2. -/
theorem C2_same_content_edit_skips_versioning :
    let r := putContentItem { items := [demoItem] } { id := "u1", role := .teacher }
      "i1" { content := some "A" } 11
    r.1.status = 200
      ∧ ((findDoc ContentItemDoc.id r.2.items "i1").map
          (fun i => (i.previousVersions.length, i.version)) = some (0, 1)) := by
  decide

/-- Apply one `PUT /content-items/:id` whose payload carries only a
`content` value, keeping the resulting store. -/
def applyEdit (st : ContentStore) (user : AuthUser) (iid : String)
    (c : String) (now : Nat) : ContentStore :=
  (putContentItem st user iid { content := some c } now).2

/-- Apply a sequence of content edits (content value, request time). -/
def applyEdits (st : ContentStore) (user : AuthUser) (iid : String) :
    List (String × Nat) → ContentStore
  | [] => st
  | e :: rest => applyEdits (applyEdit st user iid e.1 e.2) user iid rest

/-- An edit sequence in which every payload's content is non-empty and
differs from the content stored at the moment it is applied. -/
def ChangedEdits (st : ContentStore) (user : AuthUser) (iid : String) :
    List (String × Nat) → Prop
  | [] => True
  | e :: rest =>
    (∃ i, findDoc ContentItemDoc.id st.items iid = some i
        ∧ e.1 ≠ "" ∧ e.1 ≠ i.content)
      ∧ ChangedEdits (applyEdit st user iid e.1 e.2) user iid rest

/-- The document produced by a changed-content edit: previous content
pushed onto the history, version bumped, content and `updatedAt`
replaced. -/
def editedDoc (i0 : ContentItemDoc) (c : String) (now : Nat) : ContentItemDoc :=
  { id := i0.id, title := i0.title, description := i0.description,
    content := c, authorId := i0.authorId, version := i0.version + 1,
    previousVersions := i0.previousVersions
      ++ [{ content := i0.content, updatedAt := i0.updatedAt,
            updatedBy := i0.authorId }],
    updatedAt := now }

theorem applyEdits_version_history (user : AuthUser) (iid : String)
    (edits : List (String × Nat)) :
    ∀ st i0, findDoc ContentItemDoc.id st.items iid = some i0 →
      (user.role = .admin ∨ i0.authorId = user.id) →
      ChangedEdits st user iid edits →
      ∃ i1, findDoc ContentItemDoc.id (applyEdits st user iid edits).items iid = some i1
        ∧ i1.previousVersions.length = i0.previousVersions.length + edits.length
        ∧ i1.version = i0.version + edits.length
        ∧ i1.authorId = i0.authorId := by
  induction edits with
  | nil =>
    intro st i0 h _ _
    exact ⟨i0, by simpa [applyEdits] using h, by simp, by simp, rfl⟩
  | cons e rest ih =>
    intro st i0 h hauth hv
    obtain ⟨⟨i, hfind, hne, hdiff⟩, hrest⟩ := hv
    rw [h] at hfind
    cases hfind
    have hguard : ¬ (user.role ≠ .admin ∧ i0.authorId ≠ user.id) := by
      rcases hauth with h1 | h1 <;> simp [h1]
    have hcond : (contentTruthy (some e.1) && (some e.1 != some i0.content)) = true := by
      simp [contentTruthy, hne, hdiff]
    have hstep : applyEdit st user iid e.1 e.2 =
        { items := saveDoc ContentItemDoc.id st.items (editedDoc i0 e.1 e.2) } := by
      simp [applyEdit, putContentItem, h, hguard, hcond, editedDoc]
    have hid : ContentItemDoc.id (editedDoc i0 e.1 e.2) = iid := by
      have := List.find?_some
        (show List.find? (fun x => x.id == iid) st.items = some i0 from h)
      simpa [editedDoc] using this
    have hfind2 : findDoc ContentItemDoc.id (applyEdit st user iid e.1 e.2).items iid
        = some (editedDoc i0 e.1 e.2) := by
      rw [hstep]
      exact findDoc_saveDoc _ _ _ _ ⟨i0, h⟩ hid
    have hauth2 : user.role = .admin ∨ (editedDoc i0 e.1 e.2).authorId = user.id := by
      simpa [editedDoc] using hauth
    obtain ⟨i1, hf1, hlen, hver, haut⟩ := ih _ _ hfind2 hauth2 hrest
    refine ⟨i1, by simpa [applyEdits] using hf1, ?_, ?_, by simpa [editedDoc] using haut⟩
    · simp [editedDoc] at hlen
      simp [hlen]
      omega
    · simp [editedDoc] at hver
      simp [hver]
      omega

/-- C2 (amended): for every update of a ContentItem by its author or an
admin whose payload includes a non-empty `content` value different
from the stored content, exactly one entry is appended to
`previousVersions` and `version` increases by exactly 1, and across any
sequence of such edits the history grows by one entry and the version
by one per edit (so a fresh item at version 1 reaches i entries and
version 1+i after the i-th edit). -/
theorem C2_changed_content_edit_versioning (st : ContentStore) (user : AuthUser)
    (iid : String) (edits : List (String × Nat)) (i0 : ContentItemDoc)
    (h0 : findDoc ContentItemDoc.id st.items iid = some i0)
    (hauth : user.role = .admin ∨ i0.authorId = user.id)
    (hv : ChangedEdits st user iid edits) :
    ∃ i1, findDoc ContentItemDoc.id (applyEdits st user iid edits).items iid = some i1
      ∧ i1.previousVersions.length = i0.previousVersions.length + edits.length
      ∧ i1.version = i0.version + edits.length := by
  obtain ⟨i1, hf, hlen, hver, _⟩ :=
    applyEdits_version_history user iid edits st i0 h0 hauth hv
  exact ⟨i1, hf, hlen, hver⟩

/-- Witness for C2 (amended): two successive changed edits on the fresh
`demoItem` leave two history entries and version 3. -/
theorem C2_changed_content_edit_versioning_witness :
    ∃ i1, findDoc ContentItemDoc.id
        (applyEdits { items := [demoItem] } { id := "u1", role := .teacher } "i1"
          [("B", 11), ("C", 12)]).items "i1" = some i1
      ∧ i1.previousVersions.length = 0 + 2
      ∧ i1.version = 1 + 2 :=
  C2_changed_content_edit_versioning { items := [demoItem] }
    { id := "u1", role := .teacher } "i1" [("B", 11), ("C", 12)] demoItem
    (by decide) (Or.inr rfl)
    ⟨⟨demoItem, by decide, by decide, by decide⟩,
     ⟨{ id := "i1", title := "T", description := "D", content := "B",
        authorId := "u1", version := 2,
        previousVersions := [{ content := "A", updatedAt := 10, updatedBy := "u1" }],
        updatedAt := 11 }, by decide, by decide, by decide⟩,
     trivial⟩

end ContentSvc

namespace UserSvc

/-! User service (`user-service/server.js`): User documents,
`POST /auth/register`, `POST /auth/login` and `PUT /users/:id`.
bcrypt and the Joi email format check are external collaborators and
appear as function parameters; JWT signing is modeled as payload
transport (`jwt.verify (jwt.sign p secret) secret` decodes to `p`). -/

/-- User account status enum. -/
inductive UserStatus where
  | active
  | inactive
  | suspended
deriving DecidableEq, Repr

/-- The `preferences` subdocument. -/
structure Prefs where
  theme : String := "light"
  notifications : Bool := true
  language : String := "en"
deriving DecidableEq, Repr

/-- The `contactInfo` subdocument. -/
structure ContactInfo where
  phone : String := ""
  address : String := ""
  city : String := ""
  state : String := ""
  zipCode : String := ""
  country : String := ""
deriving DecidableEq, Repr

/-- A User document. -/
structure UserDoc where
  id : String
  username : String
  email : String
  passwordHash : String
  firstName : String
  lastName : String
  role : Role
  avatar : String := ""
  status : UserStatus := .active
  lastLogin : Option Nat := none
  preferences : Prefs := {}
  contactInfo : ContactInfo := {}
  createdAt : Nat
  updatedAt : Nat
deriving DecidableEq, Repr

/-- mongoose setters on the `email` path (`trim`, `lowercase`); applied
when a document is saved and when a query filter value is cast. -/
def normEmail (e : String) : String := e.trim.toLower

/-- mongoose setter on the `username` path (`trim`). -/
def normUsername (u : String) : String := u.trim

/-- The user service's database. -/
structure UserStore where
  users : List UserDoc
deriving DecidableEq, Repr

/-- Body of `POST /auth/register`. -/
structure RegisterBody where
  username : String
  email : String
  password : String
  firstName : String
  lastName : String
  role : Role
deriving DecidableEq, Repr

/-- The Joi `registerSchema` check (`emailOk` is Joi's email format
test): username at least 3 characters, valid email, password at least
6 characters, names present, role one of the three enum values (the
`Role` type). -/
def registerValid (emailOk : String → Bool) (b : RegisterBody) : Bool :=
  (3 ≤ b.username.length) && emailOk b.email && (6 ≤ b.password.length)
    && (b.firstName ≠ "") && (b.lastName ≠ "")

/-- The User document stored by a successful registration (schema
setters applied to username, email and the name fields). -/
def registeredUser (bhash : String → String → String) (b : RegisterBody)
    (salt newId : String) (now : Nat) : UserDoc :=
  { id := newId, username := normUsername b.username, email := normEmail b.email,
    passwordHash := bhash salt b.password, firstName := b.firstName.trim,
    lastName := b.lastName.trim, role := b.role, createdAt := now, updatedAt := now }

/-- `POST /auth/register`: validate, reject when a user with the same
email or username exists, hash the password with a fresh salt, insert. -/
def postRegister (emailOk : String → Bool) (bhash : String → String → String)
    (st : UserStore) (b : RegisterBody) (salt newId : String) (now : Nat) :
    HttpRes × UserStore :=
  if ¬ registerValid emailOk b then
    ({ status := 400, message := "validation error" }, st)
  else
    match st.users.find?
        (fun u => u.email == normEmail b.email || u.username == normUsername b.username) with
    | some _ => ({ status := 400, message := "User already exists" }, st)
    | none =>
      ({ status := 201, message := "User registered successfully" },
       { users := st.users ++ [registeredUser bhash b salt newId now] })

/-- The JWT payload signed at login: `{ id, email, role }`. -/
structure JwtPayload where
  id : String
  email : String
  role : Role
deriving DecidableEq, Repr

/-- A signed token; verification against the shared secret gives back
the payload. -/
structure SignedToken where
  payload : JwtPayload
deriving DecidableEq, Repr

def jwtSign (p : JwtPayload) : SignedToken := ⟨p⟩

def jwtDecode (t : SignedToken) : JwtPayload := t.payload

/-- Outcome of `POST /auth/login`. -/
inductive LoginResult where
  | ok (token : SignedToken) (st : UserStore)
  | err (status : Nat) (message : String)
deriving DecidableEq, Repr

/-- `POST /auth/login`: Joi check, passport local strategy (find the
user by email, compare the bcrypt hash), stamp `lastLogin`, sign the
token carrying the stored role. -/
def postLogin (emailOk : String → Bool) (bcompare : String → String → Bool)
    (st : UserStore) (email password : String) (now : Nat) : LoginResult :=
  if ¬ (emailOk email && (password ≠ "")) then .err 400 "validation error"
  else
    match st.users.find? (fun u => u.email == normEmail email) with
    | none => .err 401 "Incorrect email."
    | some user =>
      if ¬ bcompare user.passwordHash password then .err 401 "Incorrect password."
      else
        let user2 := { user with lastLogin := some now, updatedAt := now }
        .ok (jwtSign { id := user.id, email := user.email, role := user.role })
          { users := saveDoc UserDoc.id st.users user2 }

/-- C8: for every registration payload accepted by `POST /auth/register`
(against any email format check and any bcrypt pair whose compare
accepts the hash of the hashed password), a login with the same email
and password succeeds and the decoded token's role is the registered
role. -/
theorem C8_register_login_round_trip (emailOk : String → Bool)
    (bhash : String → String → String) (bcompare : String → String → Bool)
    (hbc : ∀ s p, bcompare (bhash s p) p = true)
    (st : UserStore) (b : RegisterBody) (salt newId : String) (now now2 : Nat)
    (st2 : UserStore)
    (hacc : postRegister emailOk bhash st b salt newId now
      = ({ status := 201, message := "User registered successfully" }, st2)) :
    ∃ tok st3, postLogin emailOk bcompare st2 b.email b.password now2 = .ok tok st3
      ∧ (jwtDecode tok).role = b.role := by
  rw [postRegister] at hacc
  by_cases hval : registerValid emailOk b = true
  · rw [if_neg (by simp [hval])] at hacc
    cases hdup : st.users.find?
        (fun u => u.email == normEmail b.email || u.username == normUsername b.username) with
    | some u => rw [hdup] at hacc; simp at hacc
    | none =>
      rw [hdup] at hacc
      have hst2 : st2 = { users := st.users ++ [registeredUser bhash b salt newId now] } := by
        have := congrArg Prod.snd hacc
        exact this.symm
      have hval' := hval
      rw [registerValid] at hval'
      simp only [Bool.and_eq_true, decide_eq_true_eq] at hval'
      obtain ⟨⟨⟨⟨hu3, hemail⟩, hpw6⟩, hfn⟩, hln⟩ := hval'
      have hpw : b.password ≠ "" := by
        intro hempty
        rw [hempty] at hpw6
        simp at hpw6
      have hnone : st.users.find? (fun u => u.email == normEmail b.email) = none := by
        rw [List.find?_eq_none] at hdup ⊢
        intro u hu hmatch
        exact hdup u hu (by simp_all)
      have hfindnew : List.find? (fun u => u.email == normEmail b.email)
          (st.users ++ [registeredUser bhash b salt newId now])
          = some (registeredUser bhash b salt newId now) := by
        rw [List.find?_append, hnone]
        simp [registeredUser]
      rw [hst2, postLogin, if_neg (by simp [hemail, hpw])]
      simp only [hfindnew]
      rw [if_neg (by simp [registeredUser, hbc])]
      exact ⟨_, _, rfl, by simp [jwtDecode, jwtSign, registeredUser]⟩
  · rw [if_pos (by simpa using hval)] at hacc
    simp at hacc

/-- Witness for C8: registering a student on an empty store and logging
in with the same credentials returns a student token. -/
theorem C8_register_login_round_trip_witness :
    ∃ tok st3,
      postLogin (fun _ => true) (fun h p => h == p)
        (postRegister (fun _ => true) (fun _ p => p) { users := [] }
          { username := "alice", email := "alice@example.com", password := "secret1",
            firstName := "Alice", lastName := "Doe", role := .student } "s" "u1" 1).2
        "alice@example.com" "secret1" 5 = .ok tok st3
      ∧ (jwtDecode tok).role = Role.student :=
  C8_register_login_round_trip (fun _ => true) (fun _ p => p) (fun h p => h == p)
    (fun _ p => by simp) { users := [] }
    { username := "alice", email := "alice@example.com", password := "secret1",
      firstName := "Alice", lastName := "Doe", role := .student } "s" "u1" 1 5 _ rfl

/-- Body of `PUT /users/:id`; absent fields are `none`. -/
structure UserUpdateBody where
  firstName : Option String := none
  lastName : Option String := none
  avatar : Option String := none
  contactInfo : Option ContactInfo := none
  preferences : Option Prefs := none
  role : Option Role := none
  status : Option UserStatus := none
deriving DecidableEq, Repr

/-- The handler's `if (req.body[field])` truthiness test on a string
field: present and non-empty keeps the new value, otherwise the old. -/
def setStr (cur : String) (v : Option String) : String :=
  match v with
  | some s => if s ≠ "" then s else cur
  | none => cur

/-- The document written by a non-admin self-update: the five
payload-writable fields plus the pre-save `updatedAt` stamp. -/
def selfUpdatedUser (u0 : UserDoc) (body : UserUpdateBody) (now : Nat) : UserDoc :=
  { u0 with
    firstName := setStr u0.firstName body.firstName,
    lastName := setStr u0.lastName body.lastName,
    avatar := setStr u0.avatar body.avatar,
    contactInfo := body.contactInfo.getD u0.contactInfo,
    preferences := body.preferences.getD u0.preferences,
    updatedAt := now }

/-- `PUT /users/:id` (`req.user` is the full document loaded by the
passport JWT strategy): self or admin only; the field loop writes
firstName, lastName, avatar, contactInfo and preferences when truthy;
only an admin additionally writes role and status; the pre-save hook
stamps `updatedAt`. -/
def putUsers (st : UserStore) (actor : UserDoc) (targetId : String)
    (body : UserUpdateBody) (now : Nat) : HttpRes × UserStore :=
  if actor.role ≠ .admin ∧ actor.id ≠ targetId then
    ({ status := 403, message := "Access denied" }, st)
  else
    match findDoc UserDoc.id st.users targetId with
    | none => ({ status := 404, message := "User not found" }, st)
    | some user0 =>
      let user1 :=
        { user0 with
          firstName := setStr user0.firstName body.firstName,
          lastName := setStr user0.lastName body.lastName,
          avatar := setStr user0.avatar body.avatar,
          contactInfo := body.contactInfo.getD user0.contactInfo,
          preferences := body.preferences.getD user0.preferences }
      let user2 :=
        if actor.role = .admin then
          { user1 with role := body.role.getD user1.role,
                       status := body.status.getD user1.status }
        else user1
      let user3 := { user2 with updatedAt := now }
      ({ status := 200, message := "User updated successfully" },
       { users := saveDoc UserDoc.id st.users user3 })

/-- A plain student account used in the `PUT /users/:id` theorems. -/
def bobUser : UserDoc :=
  { id := "u1", username := "bob", email := "bob@example.com", passwordHash := "h1",
    firstName := "Bob", lastName := "Lee", role := .student,
    createdAt := 1, updatedAt := 1 }

/-- C10 counterexample: a non-admin self-update of `firstName` alone
also changes `updatedAt` (pre-save hook), so the five listed fields are
not the only fields that can change. -/
theorem C10_self_update_changes_updatedAt :
    let r := putUsers { users := [bobUser] } bobUser "u1" { firstName := some "Bo" } 7
    r.1.status = 200
      ∧ ((findDoc UserDoc.id r.2.users "u1").map UserDoc.updatedAt = some 7)
      ∧ bobUser.updatedAt = 1 := by
  decide

/-- C10 (amended): for every `PUT /users/:id` by a non-admin caller on
their own record, only firstName, lastName, avatar, contactInfo,
preferences and the bookkeeping timestamp `updatedAt` can change; role,
status, username, email, passwordHash (and id, createdAt, lastLogin)
are unchanged, so self-update can never escalate privileges. -/
theorem C10_self_update_frame (st : UserStore) (actor : UserDoc)
    (body : UserUpdateBody) (now : Nat) (hrole : actor.role ≠ .admin)
    (u0 : UserDoc) (hfind : findDoc UserDoc.id st.users actor.id = some u0) :
    ∃ u1, findDoc UserDoc.id (putUsers st actor actor.id body now).2.users actor.id
        = some u1
      ∧ u1.role = u0.role ∧ u1.status = u0.status ∧ u1.username = u0.username
      ∧ u1.email = u0.email ∧ u1.passwordHash = u0.passwordHash
      ∧ u1.id = u0.id ∧ u1.createdAt = u0.createdAt ∧ u1.lastLogin = u0.lastLogin := by
  have hguard : ¬ (actor.role ≠ .admin ∧ actor.id ≠ actor.id) := by simp
  have hid : u0.id = actor.id := by
    have := List.find?_some
      (show List.find? (fun x => x.id == actor.id) st.users = some u0 from hfind)
    simpa using this
  refine ⟨selfUpdatedUser u0 body now, ?_, by simp [selfUpdatedUser]⟩
  simp only [putUsers, if_neg hguard, hfind, if_neg hrole]
  exact findDoc_saveDoc _ _ _ _ ⟨u0, hfind⟩ (by simp [selfUpdatedUser, hid])

/-- Witness for C10 (amended): a concrete self-update by the student
`bobUser` leaves role, status, username, email and passwordHash intact. -/
theorem C10_self_update_frame_witness :
    ∃ u1, findDoc UserDoc.id
        (putUsers { users := [bobUser] } bobUser bobUser.id
          { firstName := some "Bo", role := some .admin } 7).2.users bobUser.id
        = some u1
      ∧ u1.role = bobUser.role ∧ u1.status = bobUser.status
      ∧ u1.username = bobUser.username ∧ u1.email = bobUser.email
      ∧ u1.passwordHash = bobUser.passwordHash ∧ u1.id = bobUser.id
      ∧ u1.createdAt = bobUser.createdAt ∧ u1.lastLogin = bobUser.lastLogin :=
  C10_self_update_frame { users := [bobUser] } bobUser
    { firstName := some "Bo", role := some .admin } 7 (by decide) bobUser (by decide)

end UserSvc

namespace CommSvc

/-! Communication service (`communication-service/server.js`): Message,
Announcement and Notification documents, the socket handlers
(`authenticate`, `private-message`) and the announcement and
notification routes, plus the frontend's `sendPrivateMessage` thunk
(`communicationSlice.js`). -/

/-- The validated `targetAudience` subdocument: `all`, `class` with a
classId, or `role` with a role. -/
inductive Audience where
  | all
  | cls (classId : String)
  | byRole (r : Role)
deriving DecidableEq, Repr

/-- A Message document (attachments are inert here and omitted). -/
structure MessageDoc where
  id : String
  senderId : String
  recipientId : String
  subject : String
  content : String
  read : Bool := false
  createdAt : Nat
deriving DecidableEq, Repr

/-- The `relatedTo.type` enum of a Notification. -/
inductive RelatedType where
  | message
  | announcement
  | content
  | cls
deriving DecidableEq, Repr

/-- A Notification document. -/
structure NotificationDoc where
  id : String
  userId : String
  title : String
  message : String
  relatedType : RelatedType
  relatedId : String
  read : Bool := false
  createdAt : Nat
deriving DecidableEq, Repr

/-- An Announcement document (attachments omitted). -/
structure AnnouncementDoc where
  id : String
  title : String
  content : String
  authorId : String
  audience : Audience
  priority : String := "medium"
  startDate : Nat
  endDate : Option Nat := none
  createdAt : Nat
  updatedAt : Nat
deriving DecidableEq, Repr

/-- The communication service's database. -/
structure CommStore where
  messages : List MessageDoc := []
  announcements : List AnnouncementDoc := []
  notifications : List NotificationDoc := []
deriving DecidableEq, Repr

/-- One socket connection; `userId`/`userRole` are set by a successful
`authenticate` and `none` before it. -/
structure Socket where
  sid : String
  userId : Option String := none
  userRole : Option Role := none
deriving DecidableEq, Repr

/-- The relay process: database plus connected sockets. -/
structure CommServer where
  store : CommStore
  sockets : List Socket
deriving DecidableEq, Repr

/-- Where an emit goes: one socket, a per-user room, a per-role room,
or every connection (`io.emit`). -/
inductive Target where
  | onlySocket (sid : String)
  | userRoom (uid : String)
  | roleRoom (r : Role)
  | everyone
deriving DecidableEq, Repr

/-- Payload of an emitted socket event, reduced to the fields the
claims mention. -/
inductive Payload where
  | authResult (success : Bool)
  | errorMsg (message : String)
  | messageSent (success : Bool) (messageId : String)
  | newMessage (messageId : String) (notificationId : String)
  | newAnnouncement (announcementId : String)
deriving DecidableEq, Repr

/-- One emitted socket event. -/
structure Emission where
  target : Target
  event : String
  payload : Payload
deriving DecidableEq, Repr

/-- Room membership after the single `authenticate` joins: a socket is
in `user:u` (resp. `role:r`) exactly when it authenticated as `u`
(resp. with role `r`). -/
def inTarget (t : Target) (s : Socket) : Bool :=
  match t with
  | .onlySocket sid => s.sid == sid
  | .userRoom uid => s.userId == some uid
  | .roleRoom r => s.userRole == some r
  | .everyone => true

/-- The sockets that receive an emit to a target. -/
def recipients (srv : CommServer) (t : Target) : List Socket :=
  srv.sockets.filter (inTarget t)

/-- `socket.on('authenticate')`: bind the decoded id and role to the
connection and join its rooms on success (`tok = some payload`), else
report failure and leave the connection unauthenticated. -/
def setSocketAuth : List Socket → String → UserSvc.JwtPayload → List Socket
  | [], _, _ => []
  | s :: ss, sid, p =>
    if s.sid == sid then { s with userId := some p.id, userRole := some p.role } :: ss
    else s :: setSocketAuth ss sid p

def authenticateHandler (srv : CommServer) (sid : String)
    (tok : Option UserSvc.JwtPayload) : CommServer × List Emission :=
  match tok with
  | some p =>
    ({ srv with sockets := setSocketAuth srv.sockets sid p },
     [{ target := .onlySocket sid, event := "authenticated", payload := .authResult true }])
  | none =>
    (srv,
     [{ target := .onlySocket sid, event := "authenticated", payload := .authResult false }])

/-- Data of a `private-message` socket event. -/
structure PrivateMsgData where
  recipientId : String
  subject : String
  content : String
deriving DecidableEq, Repr

/-- The Message document persisted by the `private-message` handler. -/
def pmMessage (uid : String) (data : PrivateMsgData) (newMsgId : String)
    (now : Nat) : MessageDoc :=
  { id := newMsgId, senderId := uid, recipientId := data.recipientId,
    subject := data.subject, content := data.content, createdAt := now }

/-- The Notification document persisted by the `private-message`
handler for the recipient. -/
def pmNotification (uid : String) (data : PrivateMsgData)
    (newMsgId newNotifId : String) (now : Nat) : NotificationDoc :=
  { id := newNotifId, userId := data.recipientId, title := "New Message",
    message := "You have a new message from " ++ uid ++ ": " ++ data.subject,
    relatedType := .message, relatedId := newMsgId, createdAt := now }

/-- The mongoose `required` validators run by `newMessage.save()`:
`senderId`, `recipientId`, `subject` and `content` are required string
paths, and the required validator rejects the empty string.  When the
message saves, the notification always saves too: its `userId` is the
same (checked) recipient id, `title` and `message` are non-empty
literals, and `relatedTo.id` is the freshly generated message id, which
mongo never generates empty. -/
def pmDataValid (uid : String) (data : PrivateMsgData) : Bool :=
  (uid ≠ "") && (data.recipientId ≠ "") && (data.subject ≠ "") && (data.content ≠ "")

/-- `socket.on('private-message')`: unauthenticated connections get an
`error` event and nothing else happens; a payload that fails the
schema's `required` validators makes `newMessage.save()` reject, so the
catch persists nothing and emits the failure reason to the sender;
otherwise the Message and the recipient's Notification are persisted,
the pair is relayed to the recipient's per-user room, and a
`message-sent` event with the new message id goes back to the sender's
socket. -/
def privateMessageHandler (srv : CommServer) (sock : Socket)
    (data : PrivateMsgData) (newMsgId newNotifId : String) (now : Nat) :
    CommServer × List Emission :=
  match sock.userId with
  | none =>
    (srv,
     [{ target := .onlySocket sock.sid, event := "error",
        payload := .errorMsg "Not authenticated" }])
  | some uid =>
    if pmDataValid uid data then
      let newMessage := pmMessage uid data newMsgId now
      let notif := pmNotification uid data newMsgId newNotifId now
      let store2 :=
        { srv.store with
          messages := srv.store.messages ++ [newMessage],
          notifications := srv.store.notifications ++ [notif] }
      ({ srv with store := store2 },
       [{ target := .userRoom data.recipientId, event := "new-message",
          payload := .newMessage newMsgId newNotifId },
        { target := .onlySocket sock.sid, event := "message-sent",
          payload := .messageSent true newMsgId }])
    else
      (srv,
       [{ target := .onlySocket sock.sid, event := "error",
          payload := .errorMsg "Failed to send message" }])

/-- `GET /notifications`: the caller's notifications, newest first. -/
def getNotifications (st : CommStore) (uid : String) : List NotificationDoc :=
  (st.notifications.filter (fun n => n.userId == uid)).mergeSort
    (fun a b => b.createdAt ≤ a.createdAt)

/-- Body of `POST /announcements`; the Joi schema requires title and
content, a structurally valid audience (the `Audience` type) and a
priority from the enum. -/
structure AnnouncementBody where
  title : String
  content : String
  audience : Audience
  priority : String := "medium"
  startDate : Option Nat := none
  endDate : Option Nat := none
deriving DecidableEq, Repr

def announcementBodyValid (b : AnnouncementBody) : Bool :=
  (b.title ≠ "") && (b.content ≠ "")
    && (b.priority == "low" || b.priority == "medium" || b.priority == "high")

/-- The Announcement document persisted by `POST /announcements`
(schema default `startDate: Date.now`). -/
def newAnnouncementDoc (user : AuthUser) (b : AnnouncementBody) (newId : String)
    (now : Nat) : AnnouncementDoc :=
  { id := newId, title := b.title, content := b.content, authorId := user.id,
    audience := b.audience, priority := b.priority,
    startDate := b.startDate.getD now, endDate := b.endDate,
    createdAt := now, updatedAt := now }

/-- `POST /announcements` (teachers and admins): persist, then emit
`new-announcement` to everyone (audience `all`), to the role room
(audience `role`), or — the roster-lookup fallback — again to everyone
(audience `class`). -/
def postAnnouncements (srv : CommServer) (user : AuthUser) (b : AnnouncementBody)
    (newId : String) (now : Nat) : HttpRes × CommServer × List Emission :=
  if user.role ≠ .teacher ∧ user.role ≠ .admin then
    ({ status := 403,
       message := "Access denied. Only teachers and admins can create announcements." },
     srv, [])
  else if ¬ announcementBodyValid b then
    ({ status := 400, message := "validation error" }, srv, [])
  else
    let a := newAnnouncementDoc user b newId now
    let srv2 :=
      { srv with store :=
          { srv.store with announcements := srv.store.announcements ++ [a] } }
    let ems :=
      match b.audience with
      | .all =>
        [{ target := .everyone, event := "new-announcement",
           payload := .newAnnouncement newId }]
      | .byRole r =>
        [{ target := .roleRoom r, event := "new-announcement",
           payload := .newAnnouncement newId }]
      | .cls _ =>
        [{ target := .everyone, event := "new-announcement",
           payload := .newAnnouncement newId }]
    ({ status := 201, message := "Announcement created successfully" }, srv2, ems)

/-- The audience disjunction that `GET /announcements` assigns to
`query.$or` (the second assignment, which replaces the endDate
disjunction built just before it): audience `all`, audience `role`
matching the caller's role, or — for students and teachers — any
audience `class`. -/
def announcementAudienceOr (role : Role) (a : AnnouncementDoc) : Bool :=
  (a.audience == .all)
    || (match a.audience with
        | .byRole r => r == role
        | _ => false)
    || ((role == .student || role == .teacher)
        && (match a.audience with
            | .cls _ => true
            | _ => false))

/-- The filter `GET /announcements` actually runs: the `startDate` upper
bound survives, but the endDate `$or` was overwritten by the audience
`$or`, so `endDate` is not consulted. -/
def getAnnouncementsQuery (role : Role) (now : Nat) (a : AnnouncementDoc) : Bool :=
  decide (a.startDate ≤ now) && announcementAudienceOr role a

/-- `GET /announcements`: matching announcements sorted by priority and
creation time, both descending. -/
def getAnnouncements (st : CommStore) (role : Role) (now : Nat) :
    List AnnouncementDoc :=
  (st.announcements.filter (getAnnouncementsQuery role now)).mergeSort
    (fun a b => b.priority < a.priority
      || (b.priority == a.priority && decide (b.createdAt ≤ a.createdAt)))

/-- The fixed wait (ms) the frontend's `sendPrivateMessage` thunk arms
before rejecting. -/
def SOCKET_ACK_TIMEOUT_MS : Nat := 5000

/-- The acknowledgment callback argument the thunk waits for. -/
structure AckResponse where
  success : Bool
  messageId : String := ""
  message : String := ""
deriving DecidableEq, Repr

/-- Settlement of the thunk's promise. -/
inductive SendOutcome where
  | resolved (messageId : String)
  | rejected (reason : String)
deriving DecidableEq, Repr

/-- `sendPrivateMessage`: resolve on a success acknowledgment, reject
with its message (or the fallback text) on a failure acknowledgment,
and reject with the timeout error when no acknowledgment arrives
within `SOCKET_ACK_TIMEOUT_MS`. -/
def awaitPrivateMessageAck (ackWithinWindow : Option AckResponse) : SendOutcome :=
  match ackWithinWindow with
  | some r =>
    if r.success then .resolved r.messageId
    else .rejected (if r.message ≠ "" then r.message else "Failed to send message")
  | none => .rejected "Socket response timeout"

/-- C4: for every private-message send on an authenticated connection,
when the payload passes the schema's save validators the handler
acknowledges the sender's socket with a `message-sent` event carrying
the id under which the message was persisted; when the save rejects the
sender gets an `error` event with the failure reason and nothing is
persisted (an unauthenticated connection likewise gets an `error`
reason); the caller's wait for the acknowledgment is bounded at 5000 ms
and the thunk treats a missing acknowledgment as a failed send even
though the message may already be persisted. -/
theorem C4_private_message_ack_bounded_wait (srv : CommServer) (sock : Socket)
    (data : PrivateMsgData) (newMsgId newNotifId : String) (now : Nat)
    (uid : String) (hauth : sock.userId = some uid) :
    (pmDataValid uid data = true →
        ({ target := .onlySocket sock.sid, event := "message-sent",
           payload := .messageSent true newMsgId } : Emission)
            ∈ (privateMessageHandler srv sock data newMsgId newNotifId now).2
          ∧ (∃ m ∈ (privateMessageHandler srv sock data newMsgId newNotifId now).1.store.messages,
              m.id = newMsgId))
      ∧ (pmDataValid uid data = false →
          (privateMessageHandler srv sock data newMsgId newNotifId now).1 = srv
            ∧ (privateMessageHandler srv sock data newMsgId newNotifId now).2
              = [{ target := .onlySocket sock.sid, event := "error",
                   payload := .errorMsg "Failed to send message" }])
      ∧ (∀ sock2 : Socket, sock2.userId = none →
          (privateMessageHandler srv sock2 data newMsgId newNotifId now).2
            = [{ target := .onlySocket sock2.sid, event := "error",
                 payload := .errorMsg "Not authenticated" }])
      ∧ SOCKET_ACK_TIMEOUT_MS = 5000
      ∧ awaitPrivateMessageAck none = .rejected "Socket response timeout" := by
  refine ⟨?_, ?_, ?_, rfl, rfl⟩
  · intro hv
    refine ⟨?_, ⟨pmMessage uid data newMsgId now, ?_, rfl⟩⟩ <;>
      simp [privateMessageHandler, hauth, hv]
  · intro hv
    constructor <;> simp [privateMessageHandler, hauth, hv]
  · intro sock2 h2
    simp [privateMessageHandler, h2]

/-- A connected socket authenticated as the student `s1`. -/
def senderSock : Socket := { sid := "k1", userId := some "s1", userRole := some .student }

/-- Witness for C4 at a concrete server, socket and payload. -/
theorem C4_private_message_ack_bounded_wait_witness :
    (pmDataValid "s1" { recipientId := "r1", subject := "Hi", content := "Hello" } = true →
        ({ target := .onlySocket senderSock.sid, event := "message-sent",
           payload := .messageSent true "m1" } : Emission)
            ∈ (privateMessageHandler { store := {}, sockets := [senderSock] } senderSock
                { recipientId := "r1", subject := "Hi", content := "Hello" } "m1" "n1" 3).2
          ∧ (∃ m ∈ (privateMessageHandler { store := {}, sockets := [senderSock] } senderSock
                { recipientId := "r1", subject := "Hi", content := "Hello" } "m1" "n1" 3).1.store.messages,
              m.id = "m1"))
      ∧ (pmDataValid "s1" { recipientId := "r1", subject := "Hi", content := "Hello" } = false →
          (privateMessageHandler { store := {}, sockets := [senderSock] } senderSock
              { recipientId := "r1", subject := "Hi", content := "Hello" } "m1" "n1" 3).1
            = { store := {}, sockets := [senderSock] }
            ∧ (privateMessageHandler { store := {}, sockets := [senderSock] } senderSock
                { recipientId := "r1", subject := "Hi", content := "Hello" } "m1" "n1" 3).2
              = [{ target := .onlySocket senderSock.sid, event := "error",
                   payload := .errorMsg "Failed to send message" }])
      ∧ (∀ sock2 : Socket, sock2.userId = none →
          (privateMessageHandler { store := {}, sockets := [senderSock] } sock2
            { recipientId := "r1", subject := "Hi", content := "Hello" } "m1" "n1" 3).2
            = [{ target := .onlySocket sock2.sid, event := "error",
                 payload := .errorMsg "Not authenticated" }])
      ∧ SOCKET_ACK_TIMEOUT_MS = 5000
      ∧ awaitPrivateMessageAck none = .rejected "Socket response timeout" :=
  C4_private_message_ack_bounded_wait { store := {}, sockets := [senderSock] } senderSock
    { recipientId := "r1", subject := "Hi", content := "Hello" } "m1" "n1" 3 "s1" rfl

/-- C6: a private-message event on a connection that has not
authenticated yields exactly one `error` event targeted at that
connection; the server state — stored documents and the socket list —
is unchanged, so nothing is persisted and the connection is not torn
down. -/
theorem C6_unauthenticated_private_message (srv : CommServer) (sock : Socket)
    (data : PrivateMsgData) (newMsgId newNotifId : String) (now : Nat)
    (h : sock.userId = none) :
    (privateMessageHandler srv sock data newMsgId newNotifId now).1 = srv
      ∧ (privateMessageHandler srv sock data newMsgId newNotifId now).2
          = [{ target := .onlySocket sock.sid, event := "error",
               payload := .errorMsg "Not authenticated" }] := by
  constructor <;> simp [privateMessageHandler, h]

/-- Witness for C6: a fresh, unauthenticated socket. -/
theorem C6_unauthenticated_private_message_witness :
    (privateMessageHandler { store := {}, sockets := [{ sid := "k2" }] } { sid := "k2" }
        { recipientId := "r1", subject := "Hi", content := "Hello" } "m1" "n1" 3).1
      = { store := {}, sockets := [{ sid := "k2" }] }
      ∧ (privateMessageHandler { store := {}, sockets := [{ sid := "k2" }] } { sid := "k2" }
          { recipientId := "r1", subject := "Hi", content := "Hello" } "m1" "n1" 3).2
        = [{ target := .onlySocket "k2", event := "error",
             payload := .errorMsg "Not authenticated" }] :=
  C6_unauthenticated_private_message { store := {}, sockets := [{ sid := "k2" }] }
    { sid := "k2" } { recipientId := "r1", subject := "Hi", content := "Hello" }
    "m1" "n1" 3 rfl

/-- C7 counterexample: an authenticated send with an empty subject to an
offline recipient persists neither the Message nor a Notification — the
mongoose `required` validator rejects the empty string, `save()` throws,
and the catch only emits the failure reason — so the recipient's
notification list stays empty, against the claimed unconditional
persistence. -/
theorem C7_empty_subject_send_persists_nothing :
    (privateMessageHandler { store := {}, sockets := [senderSock] } senderSock
        { recipientId := "r1", subject := "", content := "Hello" } "m1" "n1" 3).1
      = { store := {}, sockets := [senderSock] }
      ∧ (privateMessageHandler { store := {}, sockets := [senderSock] } senderSock
          { recipientId := "r1", subject := "", content := "Hello" } "m1" "n1" 3).2
        = [{ target := .onlySocket senderSock.sid, event := "error",
             payload := .errorMsg "Failed to send message" }]
      ∧ getNotifications (privateMessageHandler { store := {}, sockets := [senderSock] }
          senderSock { recipientId := "r1", subject := "", content := "Hello" }
          "m1" "n1" 3).1.store "r1" = [] := by
  have h1 : (privateMessageHandler { store := {}, sockets := [senderSock] } senderSock
      { recipientId := "r1", subject := "", content := "Hello" } "m1" "n1" 3).1
      = { store := {}, sockets := [senderSock] } := by decide
  refine ⟨h1, by decide, ?_⟩
  rw [h1, getNotifications]
  simp

/-- C7 (amended): a private message from an authenticated sender whose
payload passes the schema's save validators (non-empty sender id,
recipient id, subject and content), sent to a recipient with no
connected session, persists both the Message and the recipient's
Notification (unread), the live relay to the recipient's per-user room
reaches no socket, and a subsequent `GET /notifications` for the
recipient returns the stored notification with `read = false`. -/
theorem C7_offline_recipient_durable_notification (srv : CommServer) (sock : Socket)
    (data : PrivateMsgData) (newMsgId newNotifId : String) (now : Nat) (uid : String)
    (hauth : sock.userId = some uid) (hvalid : pmDataValid uid data = true)
    (hoff : ∀ s ∈ srv.sockets, s.userId ≠ some data.recipientId) :
    pmMessage uid data newMsgId now
        ∈ (privateMessageHandler srv sock data newMsgId newNotifId now).1.store.messages
      ∧ pmNotification uid data newMsgId newNotifId now
          ∈ (privateMessageHandler srv sock data newMsgId newNotifId now).1.store.notifications
      ∧ recipients (privateMessageHandler srv sock data newMsgId newNotifId now).1
          (.userRoom data.recipientId) = []
      ∧ (pmNotification uid data newMsgId newNotifId now).read = false
      ∧ pmNotification uid data newMsgId newNotifId now
          ∈ getNotifications (privateMessageHandler srv sock data newMsgId newNotifId now).1.store
              data.recipientId := by
  refine ⟨?_, ?_, ?_, rfl, ?_⟩
  · simp [privateMessageHandler, hauth, hvalid]
  · simp [privateMessageHandler, hauth, hvalid]
  · simp only [privateMessageHandler, hauth, hvalid, if_pos]
    rw [recipients, List.filter_eq_nil_iff]
    intro s hs
    simp only [inTarget, beq_iff_eq]
    exact hoff s (by simpa using hs)
  · rw [getNotifications, List.mem_mergeSort, List.mem_filter]
    constructor
    · simp [privateMessageHandler, hauth, hvalid]
    · simp [pmNotification]

/-- Witness for C7: the only connection is the sender's, so the
recipient `r1` is offline. -/
theorem C7_offline_recipient_durable_notification_witness :
    pmMessage "s1" { recipientId := "r1", subject := "Hi", content := "Hello" } "m1" 3
        ∈ (privateMessageHandler { store := {}, sockets := [senderSock] } senderSock
            { recipientId := "r1", subject := "Hi", content := "Hello" } "m1" "n1" 3).1.store.messages
      ∧ pmNotification "s1" { recipientId := "r1", subject := "Hi", content := "Hello" } "m1" "n1" 3
          ∈ (privateMessageHandler { store := {}, sockets := [senderSock] } senderSock
              { recipientId := "r1", subject := "Hi", content := "Hello" } "m1" "n1" 3).1.store.notifications
      ∧ recipients (privateMessageHandler { store := {}, sockets := [senderSock] } senderSock
            { recipientId := "r1", subject := "Hi", content := "Hello" } "m1" "n1" 3).1
          (.userRoom "r1") = []
      ∧ (pmNotification "s1" { recipientId := "r1", subject := "Hi", content := "Hello" } "m1" "n1" 3).read = false
      ∧ pmNotification "s1" { recipientId := "r1", subject := "Hi", content := "Hello" } "m1" "n1" 3
          ∈ getNotifications (privateMessageHandler { store := {}, sockets := [senderSock] } senderSock
              { recipientId := "r1", subject := "Hi", content := "Hello" } "m1" "n1" 3).1.store "r1" :=
  C7_offline_recipient_durable_notification { store := {}, sockets := [senderSock] }
    senderSock { recipientId := "r1", subject := "Hi", content := "Hello" } "m1" "n1" 3 "s1"
    rfl (by decide) (by decide)

/-- C5: once a teacher's or admin's valid announcement is persisted,
the single `new-announcement` emission is delivered to every connected
socket for audience `all`, to exactly the sockets in the matching role
room for audience `role`, and — the fallback — to every connected
socket for audience `class`. -/
theorem C5_announcement_broadcast (srv : CommServer) (user : AuthUser)
    (b : AnnouncementBody) (newId : String) (now : Nat)
    (hrole : user.role = .teacher ∨ user.role = .admin)
    (hvalid : announcementBodyValid b = true) :
    (postAnnouncements srv user b newId now).1.status = 201
      ∧ (∃ a ∈ (postAnnouncements srv user b newId now).2.1.store.announcements, a.id = newId)
      ∧ (postAnnouncements srv user b newId now).2.1.sockets = srv.sockets
      ∧ (postAnnouncements srv user b newId now).2.2.length = 1
      ∧ ∀ em ∈ (postAnnouncements srv user b newId now).2.2,
          em.event = "new-announcement"
          ∧ recipients (postAnnouncements srv user b newId now).2.1 em.target
            = (match b.audience with
               | .all => srv.sockets
               | .byRole r => srv.sockets.filter (fun s => s.userRole == some r)
               | .cls _ => srv.sockets) := by
  have hguard : ¬ (user.role ≠ Role.teacher ∧ user.role ≠ Role.admin) := by
    rcases hrole with h | h <;> simp [h]
  refine ⟨?_, ?_, ?_, ?_, ?_⟩
  · cases hb : b.audience <;> simp [postAnnouncements, hguard, hvalid, hb]
  · refine ⟨newAnnouncementDoc user b newId now, ?_, rfl⟩
    cases hb : b.audience <;> simp [postAnnouncements, hguard, hvalid, hb]
  · cases hb : b.audience <;> simp [postAnnouncements, hguard, hvalid, hb]
  · cases hb : b.audience <;> simp [postAnnouncements, hguard, hvalid, hb]
  · intro em hem
    cases hb : b.audience <;>
      (simp [postAnnouncements, hguard, hvalid, hb] at hem; subst hem) <;>
      constructor <;>
      (simp [recipients, inTarget, postAnnouncements, hguard, hvalid, hb];
        try exact List.filter_congr fun s _ => rfl)

/-- Witness for C5: a role-targeted announcement by a teacher reaches
exactly the teacher-room sockets. -/
theorem C5_announcement_broadcast_witness :
    (postAnnouncements { store := {}, sockets := [senderSock] } { id := "t1", role := .teacher }
        { title := "A", content := "B", audience := .byRole .teacher } "a1" 4).1.status = 201
      ∧ (∃ a ∈ (postAnnouncements { store := {}, sockets := [senderSock] }
            { id := "t1", role := .teacher }
            { title := "A", content := "B", audience := .byRole .teacher } "a1" 4).2.1.store.announcements,
          a.id = "a1")
      ∧ (postAnnouncements { store := {}, sockets := [senderSock] } { id := "t1", role := .teacher }
          { title := "A", content := "B", audience := .byRole .teacher } "a1" 4).2.1.sockets
        = [senderSock]
      ∧ (postAnnouncements { store := {}, sockets := [senderSock] } { id := "t1", role := .teacher }
          { title := "A", content := "B", audience := .byRole .teacher } "a1" 4).2.2.length = 1
      ∧ ∀ em ∈ (postAnnouncements { store := {}, sockets := [senderSock] }
            { id := "t1", role := .teacher }
            { title := "A", content := "B", audience := .byRole .teacher } "a1" 4).2.2,
          em.event = "new-announcement"
          ∧ recipients (postAnnouncements { store := {}, sockets := [senderSock] }
              { id := "t1", role := .teacher }
              { title := "A", content := "B", audience := .byRole .teacher } "a1" 4).2.1 em.target
            = (match ({ title := "A", content := "B",
                        audience := .byRole .teacher : AnnouncementBody }).audience with
               | .all => [senderSock]
               | .byRole r => List.filter (fun s => s.userRole == some r) [senderSock]
               | .cls _ => [senderSock]) :=
  C5_announcement_broadcast { store := {}, sockets := [senderSock] }
    { id := "t1", role := .teacher }
    { title := "A", content := "B", audience := .byRole .teacher } "a1" 4
    (Or.inl rfl) (by decide)

theorem announcementAudienceOr_iff (role : Role) (a : AnnouncementDoc) :
    announcementAudienceOr role a = true ↔
      (a.audience = .all ∨ a.audience = .byRole role
        ∨ ((role = .student ∨ role = .teacher) ∧ ∃ cid, a.audience = .cls cid)) := by
  cases ha : a.audience with
  | all => simp [announcementAudienceOr, ha]
  | cls cid => cases role <;> simp [announcementAudienceOr, ha]
  | byRole r => simp [announcementAudienceOr, ha]

/-- C9: an authenticated `GET /announcements` returns exactly the
announcements whose `startDate` is at most the current time and whose
audience matches the caller (`all`; `role` equal to the caller's role;
or any `class` announcement for students and teachers); `endDate` is
not consulted, so a match whose `endDate` lies in the past is still
returned. -/
theorem C9_get_announcements_ignores_end_date (st : CommStore) (role : Role)
    (now : Nat) (a : AnnouncementDoc) :
    a ∈ getAnnouncements st role now ↔
      a ∈ st.announcements ∧ a.startDate ≤ now
        ∧ (a.audience = .all ∨ a.audience = .byRole role
            ∨ ((role = .student ∨ role = .teacher) ∧ ∃ cid, a.audience = .cls cid)) := by
  rw [getAnnouncements, List.mem_mergeSort, List.mem_filter, getAnnouncementsQuery]
  rw [Bool.and_eq_true, decide_eq_true_eq, announcementAudienceOr_iff]

/-- Witness for C9: an `all`-audience announcement whose `endDate` (5)
is already past at time 10 is still returned. -/
theorem C9_get_announcements_ignores_end_date_witness :
    ({ id := "a1", title := "Old", content := "X", authorId := "t1", audience := .all,
       startDate := 0, endDate := some 5, createdAt := 0, updatedAt := 0 } : AnnouncementDoc)
      ∈ getAnnouncements
        { announcements := [{ id := "a1", title := "Old", content := "X", authorId := "t1",
                              audience := .all, startDate := 0, endDate := some 5,
                              createdAt := 0, updatedAt := 0 }] } .student 10 :=
  (C9_get_announcements_ignores_end_date
    { announcements := [{ id := "a1", title := "Old", content := "X", authorId := "t1",
                          audience := .all, startDate := 0, endDate := some 5,
                          createdAt := 0, updatedAt := 0 }] } .student 10
    { id := "a1", title := "Old", content := "X", authorId := "t1", audience := .all,
      startDate := 0, endDate := some 5, createdAt := 0, updatedAt := 0 }).mpr
    ⟨by simp, by simp, Or.inl rfl⟩

end CommSvc
